import Mathlib

/-!
Verification of the answer pipeline of the Grounding-Llama Streamlit chatbot
(`app.py`, class `StreamlitChatbot`).  The Python source is shallowly
embedded: strings are `String` (regex scanning works on the underlying
`List Char`), the wall clock is an explicit `now : Nat` parameter, the two
remote collaborators (the DuckDuckGo search provider and the Ollama chat
endpoint) are explicit function parameters returning `Except` values that
model a raised exception as `Except.error` with the exception's text, and
the Streamlit side effects (`st.error`, `st.session_state.history`) are
explicit return values and explicit state passing.
-/

namespace GroundingLlama

/-- A word character for the purposes of the regex word-boundary assertion
`\b`: letters, digits, or the underscore. -/
def isWordChar (c : Char) : Bool :=
  c.isAlphanum || c == '_'

/-- Does the fixed-width regex `\b20[12]\d\b` of `extract_date_from_content`
(app.py line 22) match the four characters of `s` starting at index `i`?
The four characters must read `2`, `0`, `1` or `2`, digit, and both ends
must sit at a word boundary. -/
def yearMatchAt (s : List Char) (i : Nat) : Bool :=
  decide (i + 4 ≤ s.length) &&
  (s.getD i ' ' == '2') &&
  (s.getD (i+1) ' ' == '0') &&
  (s.getD (i+2) ' ' == '1' || s.getD (i+2) ' ' == '2') &&
  (s.getD (i+3) ' ').isDigit &&
  (decide (i = 0) || !isWordChar (s.getD (i-1) ' ')) &&
  (decide (i + 4 = s.length) || !isWordChar (s.getD (i+4) ' '))

/-- Scanning loop of `re.findall` for the fixed-width year pattern: at each
index try to match; on a match emit the four matched characters and resume
right after them, otherwise advance one character.  `fuel` bounds the
recursion and is interpreted with `fuel ≥ s.length - i`. -/
def findallAux (s : List Char) : Nat → Nat → List (List Char)
  | _, 0 => []
  | i, fuel+1 =>
    if i < s.length then
      if yearMatchAt s i then
        ((s.drop i).take 4) :: findallAux s (i+4) fuel
      else
        findallAux s (i+1) fuel
    else []

/-- All matches of the year pattern in `s`, in scan order, as produced by
`re.findall(year_pattern, text)` (app.py line 23). -/
def findallYears (s : List Char) : List (List Char) :=
  findallAux s 0 s.length

/-- Translation of `extract_date_from_content` (app.py lines 20-24): run
`re.findall` for the year pattern and return the last match, or `none` when
the match list is empty (`years[-1] if years else None`). -/
def extract_date_from_content (text : String) : Option String :=
  (findallYears text.data).getLast?.map String.mk

/-- The indices at which the year pattern of the code matches, in increasing
order.  Declarative counterpart of the `findallAux` scan. -/
def yearMatchPositions (s : List Char) : List Nat :=
  (List.range s.length).filter (fun i => yearMatchAt s i)

/-- Declarative reading of `findallYears`: the matched four-character
substrings at every matching index, in increasing index order. -/
def declYears (s : List Char) : List (List Char) :=
  (yearMatchPositions s).map (fun i => (s.drop i).take 4)

/-- Modelled from the spec words of the Temporal Analyzer: a match of the
pattern `20[0-2]\d` as a plain substring of `s` at index `i` — "20"
followed by one digit in \x7b0,1,2\x7d followed by any digit — with no
word-boundary requirement. -/
def specYearMatchAt (s : List Char) (i : Nat) : Bool :=
  decide (i + 4 ≤ s.length) &&
  (s.getD i ' ' == '2') &&
  (s.getD (i+1) ' ' == '0') &&
  (s.getD (i+2) ' ' == '0' || s.getD (i+2) ' ' == '1' || s.getD (i+2) ' ' == '2') &&
  (s.getD (i+3) ' ').isDigit

/-- Modelled from the spec words of the Temporal Analyzer: find all
substrings of the input matching `20[0-2]\d` and return the last one in
scan order, or absent when there is none. -/
def specExtractYear (text : String) : Option String :=
  (((List.range text.data.length).filter (fun i => specYearMatchAt text.data i)).map
    (fun i => String.mk ((text.data.drop i).take 4))).getLast?

/-- Translation of the Python substring test `sub in hay` on strings. -/
def containsSub (sub hay : List Char) : Bool :=
  (List.range (hay.length + 1)).any (fun i => (hay.drop i).take sub.length == sub)

/-- A raw record returned by the search provider `self.ddgs.text`; the
`body` field may be absent (`Option`), matching a Python dict that may lack
the `'body'` key.  Only the `body` field is ever read downstream. -/
structure RawResult where
  title : String
  body : Option String
  href : String
deriving Repr, DecidableEq

/-- A search result whose `body` key is known to be present:
`search_internet` keeps exactly the raw records having a body, and the rest
of the pipeline reads only `result['body']`. -/
structure SearchResult where
  body : String
deriving Repr, DecidableEq

/-- The search provider collaborator: `self.ddgs.text(query, max_results=n)`
either returns a list of raw records or raises, modelled as `Except` with
the exception's text. -/
abbrev Provider := String → Nat → Except String (List RawResult)

/-- The chat completion collaborator: `ollama.chat` keyed by the system and
user message contents, either returning the reply text
(`response['message']['content']`) or raising. -/
abbrev Llm := String → String → Except String String

/-- Translation of `search_internet` (app.py lines 56-64): ask the provider
for at most five results and keep those records having a `body` field; on an
exception report it through `st.error` — modelled as the second component,
the list of error messages displayed — and return no results. -/
def search_internet (provider : Provider) (query : String) :
    List SearchResult × List String :=
  match provider query 5 with
  | Except.ok results => (results.filterMap (fun r => r.body.map SearchResult.mk), [])
  | Except.error e => ([], ["Error searching internet: " ++ e])

/-- The analysis record built by `analyze_content` (app.py lines 31-36). -/
structure Analysis where
  current_year : Nat
  content_year : Option String
  raw_content : String
  query : String
deriving Repr, DecidableEq

/-- Translation of the Python call `sep.join(l)`: the elements of `l`
concatenated in order with `sep` between consecutive elements. -/
def pyJoin (sep : String) : List String → String
  | [] => ""
  | [x] => x
  | x :: y :: rest => x ++ sep ++ pyJoin sep (y :: rest)

/-- Translation of `analyze_content` (app.py lines 26-36); the wall-clock
year `datetime.now().year` is the explicit parameter `now`. -/
def analyze_content (now : Nat) (search_results : List SearchResult)
    (query : String) : Analysis :=
  let combined_content := pyJoin " " (search_results.map (fun r => r.body))
  let latest_year := extract_date_from_content combined_content
  { current_year := now,
    content_year := latest_year,
    raw_content := combined_content,
    query := query }

/-- Translation of `create_time_aware_prompt` (app.py lines 38-54): the
f-string template with the current year, the raw content and the query
interpolated, whitespace exactly as in the source. -/
def create_time_aware_prompt (analysis : Analysis) : String :=
  let current_year := toString analysis.current_year
  "\n        Based on the following information from " ++ current_year ++
  ":\n        \n        " ++ analysis.raw_content ++
  "\n        \n        Please provide a factual response about \"" ++ analysis.query ++
  "\" that:\n        1. Is accurate to the current year (" ++ current_year ++
  ")\n        2. Explicitly mentions relevant dates and timeframes\n        3. Synthesizes information from multiple sources\n        4. Provides context when discussing time-sensitive information\n        \n        Format the response as a clear, direct statement.\n        "

/-- Tail of `get_search_response` once the analysis record is built (app.py
lines 74-100): compose the prompt, call the model with the time-aware system
message, and post-process the reply — when the decimal string of the current
year does not occur in the reply, prepend `"As of {year}, "`; a raised
exception becomes the apologetic string. -/
def respondFromAnalysis (analysis : Analysis) (llm : Llm) : String :=
  let prompt := create_time_aware_prompt analysis
  match llm ("You are an AI assistant in " ++ toString analysis.current_year ++
      ". Provide accurate, time-aware responses based on the provided information.")
      prompt with
  | Except.ok response =>
    let ai_response := response
    if containsSub (toString analysis.current_year).data ai_response.data then
      ai_response
    else
      "As of " ++ toString analysis.current_year ++ ", " ++ ai_response
  | Except.error e => "Sorry, there was an error generating a response: " ++ e

/-- Translation of `get_search_response` (app.py lines 66-100): fetch search
results; with no results short-circuit to the literal sentinel, otherwise
analyze, compose and complete. -/
def get_search_response (now : Nat) (provider : Provider) (llm : Llm)
    (query : String) : String :=
  let search_results := (search_internet provider query).1
  if search_results.isEmpty then
    "No search results found."
  else
    respondFromAnalysis (analyze_content now search_results query) llm

/-- Translation of `get_direct_response` (app.py lines 102-121): call the
model on the raw query with the direct-mode system message; a raised
exception becomes the apologetic string. -/
def get_direct_response (llm : Llm) (query : String) : String :=
  match llm "You are a helpful AI assistant. Provide direct and engaging responses."
      query with
  | Except.ok response => response
  | Except.error e => "Sorry, there was an error generating a response: " ++ e

/-- Message roles stored in `st.session_state.history`. -/
inductive Role where
  | user
  | assistant
deriving Repr, DecidableEq

/-- One chat message of the transcript. -/
structure ChatMessage where
  role : Role
  content : String
deriving Repr, DecidableEq

/-- The events the `run` loop applies to `st.session_state.history`: a
completed submission carrying the user input and the generated response, or
a click on the clear-chat control. -/
inductive UiEvent where
  | submitted (userInput response : String)
  | clearChat
deriving Repr, DecidableEq

/-- Translation of the history updates in `run` (app.py lines 160-177): a
completed submission appends the user message then the assistant message in
that order; the clear action resets the history to the empty list. -/
def stepHistory (history : List ChatMessage) : UiEvent → List ChatMessage
  | UiEvent.submitted u r =>
      history ++ [{ role := Role.user, content := u },
                  { role := Role.assistant, content := r }]
  | UiEvent.clearChat => []

/-- The transcript after a sequence of UI events, starting from the empty
history installed by `__init__` (app.py line 14). -/
def runHistory (events : List UiEvent) : List ChatMessage :=
  events.foldl stepHistory []

example : extract_date_from_content "in 2015 and again in 2021" = some "2021" := by decide
example : extract_date_from_content "2005" = none := by decide
example : specExtractYear "2005" = some "2005" := by decide
example : extract_date_from_content "20212" = none := by decide

/-! Lemmas about the year-pattern scan. -/

lemma yearMatchAt_le {s : List Char} {i : Nat} (h : yearMatchAt s i = true) :
    i + 4 ≤ s.length := by
  simp only [yearMatchAt, Bool.and_eq_true, decide_eq_true_eq] at h
  exact h.1.1.1.1.1.1

/-- The first three characters of a match are word characters. -/
lemma yearMatchAt_word {s : List Char} {i : Nat} (h : yearMatchAt s i = true)
    {k : Nat} (hk : k < 3) : isWordChar (s.getD (i + k) ' ') = true := by
  simp only [yearMatchAt, Bool.and_eq_true, Bool.or_eq_true, beq_iff_eq,
    decide_eq_true_eq] at h
  obtain ⟨⟨⟨⟨⟨⟨_, h0⟩, h1⟩, h2⟩, _⟩, _⟩, _⟩ := h
  interval_cases k
  · rw [Nat.add_zero, h0]; decide
  · rw [h1]; decide
  · rcases h2 with h2 | h2 <;> rw [h2] <;> decide

/-- Matches of the fixed-width pattern cannot overlap: a match at `i` rules
out a match at `i+1`, `i+2` and `i+3`, because the word-boundary on the left
of the later match would have to fall inside the earlier match. -/
lemma yearMatchAt_no_overlap {s : List Char} {i : Nat} (h : yearMatchAt s i = true)
    {k : Nat} (hk1 : 1 ≤ k) (hk3 : k ≤ 3) : yearMatchAt s (i + k) = false := by
  cases hm : yearMatchAt s (i + k) with
  | false => rfl
  | true =>
    exfalso
    have hw : isWordChar (s.getD (i + (k - 1)) ' ') = true :=
      yearMatchAt_word h (by omega)
    simp only [yearMatchAt, Bool.and_eq_true, Bool.or_eq_true,
      decide_eq_true_eq, Bool.not_eq_true'] at hm
    rcases hm.1.2 with hz | hnw
    · omega
    · rw [show i + k - 1 = i + (k - 1) by omega, hw] at hnw
      simp at hnw

/-- The `re.findall` scan starting at index `i` produces exactly the matches
at the matching indices `≥ i`, in increasing order. -/
lemma findallAux_eq (s : List Char) :
    ∀ fuel i, s.length - i ≤ fuel →
      findallAux s i fuel =
        ((List.range' i (s.length - i)).filter (fun j => yearMatchAt s j)).map
          (fun j => (s.drop j).take 4) := by
  intro fuel
  induction fuel with
  | zero =>
    intro i hfuel
    have : s.length - i = 0 := Nat.le_zero.mp hfuel
    simp [findallAux, this]
  | succ fuel ih =>
    intro i hfuel
    by_cases hlt : i < s.length
    · by_cases hm : yearMatchAt s i = true
      · have h4 : i + 4 ≤ s.length := yearMatchAt_le hm
        have hn : s.length - i = (s.length - (i + 4)) + 4 := by omega
        have hsplit : List.range' i (s.length - i) =
            List.range' i 4 ++ List.range' (i + 4) (s.length - (i + 4)) := by
          rw [hn, ← List.range'_append_1]
        have hfour : List.range' i 4 = [i, i + 1, i + 2, i + 3] := by
          simp [List.range'_succ]
        have o1 := yearMatchAt_no_overlap hm (k := 1) (by omega) (by omega)
        have o2 := yearMatchAt_no_overlap hm (k := 2) (by omega) (by omega)
        have o3 := yearMatchAt_no_overlap hm (k := 3) (by omega) (by omega)
        rw [show findallAux s i (fuel + 1) =
            ((s.drop i).take 4) :: findallAux s (i + 4) fuel from by
          simp [findallAux, hlt, hm]]
        rw [ih (i + 4) (by omega), hsplit, hfour, List.filter_append, List.map_append]
        simp [List.filter, hm, o1, o2, o3]
      · have hn : s.length - i = (s.length - (i + 1)) + 1 := by omega
        rw [show findallAux s i (fuel + 1) = findallAux s (i + 1) fuel from by
          simp [findallAux, hlt, hm]]
        rw [ih (i + 1) (by omega), hn, List.range'_succ, List.filter_cons]
        simp [hm]
    · have hn : s.length - i = 0 := by omega
      simp [findallAux, hlt, hn]

/-- The scan of `re.findall` agrees with the declarative description: all
matches at all matching indices, in increasing index order. -/
lemma findallYears_eq_decl (s : List Char) : findallYears s = declYears s := by
  unfold findallYears declYears yearMatchPositions
  rw [findallAux_eq s s.length 0 (by omega), List.range_eq_range']
  simp

/-- A match of the code's pattern `\b20[12]\d\b` is in particular a plain
substring matching the spec's pattern `20[0-2]\d`. -/
lemma yearMatchAt_imp_spec {s : List Char} {i : Nat} (h : yearMatchAt s i = true) :
    specYearMatchAt s i = true := by
  simp only [yearMatchAt, Bool.and_eq_true, Bool.or_eq_true, beq_iff_eq,
    decide_eq_true_eq] at h
  obtain ⟨⟨⟨⟨⟨⟨hle, h0⟩, h1⟩, h2⟩, h3⟩, _⟩, _⟩ := h
  simp only [specYearMatchAt, Bool.and_eq_true, Bool.or_eq_true, beq_iff_eq,
    decide_eq_true_eq]
  rcases h2 with h2 | h2
  · exact ⟨⟨⟨⟨hle, h0⟩, h1⟩, Or.inl (Or.inr h2)⟩, h3⟩
  · exact ⟨⟨⟨⟨hle, h0⟩, h1⟩, Or.inr h2⟩, h3⟩

/-! Lemmas about string joining and substring containment. -/

lemma foldl_append_str (l : List String) : ∀ init : String,
    l.foldl (fun r s => r ++ s) init = init ++ String.join l := by
  induction l with
  | nil => intro init; simp [String.join]
  | cons x xs ih =>
    intro init
    show xs.foldl _ (init ++ x) = init ++ String.join (x :: xs)
    rw [ih (init ++ x)]
    have hx : String.join (x :: xs) = x ++ String.join xs := by
      show xs.foldl _ ("" ++ x) = _
      rw [ih ("" ++ x), String.empty_append]
    rw [hx, String.append_assoc]

lemma join_cons_str (x : String) (l : List String) :
    String.join (x :: l) = x ++ String.join l := by
  show l.foldl _ ("" ++ x) = _
  rw [foldl_append_str l ("" ++ x), String.empty_append]

/-- Python `sep.join(l)` is the elements of `l` with `sep` interspersed,
concatenated. -/
lemma pyJoin_eq_join (sep : String) (l : List String) :
    pyJoin sep l = String.join (List.intersperse sep l) := by
  induction l with
  | nil => rfl
  | cons x xs ih =>
    cases xs with
    | nil => simp [pyJoin, String.join]
    | cons y ys =>
      rw [show pyJoin sep (x :: y :: ys) = x ++ sep ++ pyJoin sep (y :: ys) from rfl]
      rw [ih, List.intersperse_cons₂, join_cons_str, join_cons_str,
        String.append_assoc]

lemma containsSub_here (m s : List Char) : containsSub m (m ++ s) = true := by
  refine List.any_eq_true.mpr ⟨0, List.mem_range.mpr (by omega), ?_⟩
  simp [List.take_left]

lemma containsSub_append_left (m l r : List Char) (h : containsSub m r = true) :
    containsSub m (l ++ r) = true := by
  obtain ⟨i, hi, hp⟩ := List.any_eq_true.mp h
  have hi' : i < r.length + 1 := List.mem_range.mp hi
  refine List.any_eq_true.mpr ⟨l.length + i, List.mem_range.mpr (by simp; omega), ?_⟩
  have hp' : ((r.drop i).take m.length == m) = true := hp
  show (((l ++ r).drop (l.length + i)).take m.length == m) = true
  rw [← List.drop_drop, List.drop_left]
  exact hp'

/-- Bodies of the filtered search results, in order: the provider bodies
with the absent ones removed. -/
lemma filterMap_body_map (res : List RawResult) :
    ((res.filterMap (fun r => r.body.map SearchResult.mk)).map (fun s => s.body)) =
      (res.map (fun r => r.body)).reduceOption := by
  induction res with
  | nil => rfl
  | cons r rest ih =>
    cases hb : r.body with
    | none =>
      simp only [List.filterMap_cons, hb, Option.map_none', List.map_cons,
        List.reduceOption_cons_of_none]
      exact ih
    | some b =>
      simp only [List.filterMap_cons, hb, Option.map_some', List.map_cons,
        List.reduceOption_cons_of_some]
      rw [ih]

/-! The claims. -/

/-- C1 (amended): for every input string, `extract_date_from_content` finds
all matches of the code's pattern `\b20[12]\d\b` — "20" followed by one
digit in \x7b1,2\x7d followed by any digit, the whole delimited by word
boundaries, i.e. years 2010 through 2029 — and returns the last such match
in scan order, or absent when there is no match. -/
theorem extract_year_returns_last_code_match (text : String) :
    extract_date_from_content text =
      ((declYears text.data).getLast?).map String.mk := by
  rw [extract_date_from_content, findallYears_eq_decl]

/-- C1 counterexample: the input `"2005"` contains the substring `2005`
matching the claimed pattern `20[0-2]\d`, yet `extract_date_from_content`
returns absent — the code's regex `\b20[12]\d\b` excludes 2000-2009. -/
theorem extract_year_spec_pattern_cex :
    specExtractYear "2005" = some "2005" ∧
    extract_date_from_content "2005" = none :=
  ⟨by decide, by decide⟩

/-- C2: `analyze_content` returns an analysis whose `raw_content` is the
result bodies joined in input order with single-space separators, whose
`content_year` is `extract_date_from_content` of that concatenation, and
whose `current_year` is the wall-clock year (the explicit `now`). -/
theorem analyze_content_spec (now : Nat) (results : List SearchResult)
    (query : String) :
    (analyze_content now results query).raw_content =
      String.join (List.intersperse " " (results.map (fun r => r.body))) ∧
    (analyze_content now results query).content_year =
      extract_date_from_content (analyze_content now results query).raw_content ∧
    (analyze_content now results query).current_year = now ∧
    (analyze_content now results query).query = query := by
  refine ⟨?_, rfl, rfl, rfl⟩
  exact pyJoin_eq_join " " (results.map (fun r => r.body))

/-- C3: in search-augmented mode, when the model call returns `out`: if the
decimal string of the current year does not occur in `out` the returned
response is `out` with `"As of \x7byear\x7d, "` prepended, and otherwise
`out` is returned unmodified. -/
theorem search_response_year_anchor (now : Nat) (provider : Provider)
    (llm : Llm) (query out : String)
    (hres : (search_internet provider query).1 ≠ [])
    (hllm : ∀ sys usr, llm sys usr = Except.ok out) :
    (containsSub (toString now).data out.data = false →
      get_search_response now provider llm query =
        "As of " ++ toString now ++ ", " ++ out) ∧
    (containsSub (toString now).data out.data = true →
      get_search_response now provider llm query = out) := by
  have hne : ((search_internet provider query).1).isEmpty = false :=
    List.isEmpty_eq_false.mpr hres
  have hmain : get_search_response now provider llm query =
      (if containsSub (toString now).data out.data then out
       else "As of " ++ toString now ++ ", " ++ out) := by
    simp only [get_search_response, hne, Bool.false_eq_true, if_false,
      respondFromAnalysis, hllm, analyze_content]
  constructor
  · intro hc
    rw [hmain, if_neg (by simp [hc])]
  · intro hc
    rw [hmain, if_pos hc]

/-- Witness for C3 at a concrete provider and model: the reply `"hello"`
lacks the digits of 2026, so the returned response carries the prefixed
year anchor. -/
theorem search_response_year_anchor_w :
    get_search_response 2026
      (fun _ _ => Except.ok [{ title := "t", body := some "b", href := "u" }])
      (fun _ _ => Except.ok "hello") "q" = "As of 2026, hello" := by
  have h := search_response_year_anchor 2026
      (fun _ _ => Except.ok [{ title := "t", body := some "b", href := "u" }])
      (fun _ _ => Except.ok "hello") "q" "hello" (by decide) (fun _ _ => rfl)
  rw [h.1 (by decide)]
  decide

/-- C4: when the fetched search results are the empty sequence,
`get_search_response` returns exactly the literal sentinel, whatever the
completion collaborator is — in particular the model is never consulted. -/
theorem empty_results_short_circuit (now : Nat) (provider : Provider)
    (query : String) (h : (search_internet provider query).1 = []) :
    ∀ llm : Llm, get_search_response now provider llm query =
      "No search results found." := by
  intro llm
  simp [get_search_response, h]

/-- Witness for C4: a provider failure yields no results, and the response
is the sentinel for an arbitrary concrete model. -/
theorem empty_results_short_circuit_w :
    get_search_response 2026 (fun _ _ => Except.error "connection refused")
      (fun _ _ => Except.ok "model reply") "q" = "No search results found." :=
  empty_results_short_circuit 2026 (fun _ _ => Except.error "connection refused")
    "q" (by decide) (fun _ _ => Except.ok "model reply")

/-- C5: in both modes, a raised model error `e` is converted into the
apologetic string and returned as the result — the embedding returns a
plain `String`, never a propagated exception. -/
theorem completion_failure_apologetic (now : Nat) (provider : Provider)
    (llm : Llm) (query e : String)
    (hllm : ∀ sys usr, llm sys usr = Except.error e) :
    get_direct_response llm query =
      "Sorry, there was an error generating a response: " ++ e ∧
    ((search_internet provider query).1 ≠ [] →
      get_search_response now provider llm query =
        "Sorry, there was an error generating a response: " ++ e) := by
  constructor
  · simp only [get_direct_response, hllm]
  · intro hres
    have hne : ((search_internet provider query).1).isEmpty = false :=
      List.isEmpty_eq_false.mpr hres
    simp only [get_search_response, hne, Bool.false_eq_true, if_false,
      respondFromAnalysis, hllm]

/-- Witness for C5: a model that always times out yields the apologetic
string in direct mode and in search-augmented mode. -/
theorem completion_failure_apologetic_w :
    get_direct_response (fun _ _ => Except.error "timeout") "q" =
      "Sorry, there was an error generating a response: timeout" ∧
    get_search_response 2026
      (fun _ _ => Except.ok [{ title := "t", body := some "b", href := "u" }])
      (fun _ _ => Except.error "timeout") "q" =
      "Sorry, there was an error generating a response: timeout" := by
  have h := completion_failure_apologetic 2026
      (fun _ _ => Except.ok [{ title := "t", body := some "b", href := "u" }])
      (fun _ _ => Except.error "timeout") "q" "timeout" (fun _ _ => rfl)
  exact ⟨by rw [h.1]; decide, by rw [h.2 (by decide)]; decide⟩

/-- C6: `search_internet` returns at most five results (given that the
provider honours its `max_results` argument), keeps exactly the provider
records carrying a body, in order, and converts a provider failure into an
empty result list together with the displayed error message. -/
theorem search_internet_contract (provider : Provider) (query : String)
    (hbound : ∀ q n res, provider q n = Except.ok res → res.length ≤ n) :
    (search_internet provider query).1.length ≤ 5 ∧
    (∀ res, provider query 5 = Except.ok res →
      ((search_internet provider query).1.map (fun s => s.body)) =
        (res.map (fun r => r.body)).reduceOption) ∧
    (∀ e, provider query 5 = Except.error e →
      search_internet provider query =
        ([], ["Error searching internet: " ++ e])) := by
  refine ⟨?_, ?_, ?_⟩
  · cases hp : provider query 5 with
    | ok res =>
      have hlen := hbound query 5 res hp
      simp only [search_internet, hp]
      exact le_trans (List.length_filterMap_le _ _) hlen
    | error e => simp [search_internet, hp]
  · intro res hp
    simp only [search_internet, hp]
    exact filterMap_body_map res
  · intro e hp
    simp [search_internet, hp]

/-- Witness for C6 at a provider that honours `max_results` by truncation:
the returned list stays within the bound. -/
theorem search_internet_contract_w :
    (search_internet (fun _ n => Except.ok (List.take n
      [{ title := "t1", body := some "b1", href := "u1" },
       { title := "t2", body := none, href := "u2" }])) "q").1.length ≤ 5 := by
  have h := search_internet_contract (fun _ n => Except.ok (List.take n
      [{ title := "t1", body := some "b1", href := "u1" },
       { title := "t2", body := none, href := "u2" }])) "q"
    (fun q n res hp => by
      injection hp with hh
      subst hh
      exact List.length_take_le n _)
  exact h.1

set_option maxRecDepth 8192 in
/-- C7: the composed prompt literally contains the decimal current year,
the full raw content and the full query as substrings; `compose` is a plain
function of the analysis record, hence pure and deterministic. -/
theorem prompt_contains_fields (a : Analysis) :
    containsSub (toString a.current_year).data (create_time_aware_prompt a).data = true ∧
    containsSub a.raw_content.data (create_time_aware_prompt a).data = true ∧
    containsSub a.query.data (create_time_aware_prompt a).data = true := by
  refine ⟨?_, ?_, ?_⟩ <;>
    simp only [create_time_aware_prompt, String.data_append, List.append_assoc]
  · exact containsSub_append_left _ _ _ (containsSub_here _ _)
  · exact containsSub_append_left _ _ _ (containsSub_append_left _ _ _
      (containsSub_append_left _ _ _ (containsSub_here _ _)))
  · exact containsSub_append_left _ _ _ (containsSub_append_left _ _ _
      (containsSub_append_left _ _ _ (containsSub_append_left _ _ _
        (containsSub_append_left _ _ _ (containsSub_here _ _)))))

/-- C8: a completed exchange appends exactly the user message then the
assistant message; the clear action resets the transcript; consequently the
transcript built from any event sequence has even length. -/
theorem transcript_even_invariant :
    (∀ h u r, stepHistory h (UiEvent.submitted u r) =
      h ++ [{ role := Role.user, content := u },
            { role := Role.assistant, content := r }]) ∧
    (∀ h, stepHistory h UiEvent.clearChat = []) ∧
    (∀ events, (runHistory events).length % 2 = 0) := by
  refine ⟨fun h u r => rfl, fun h => rfl, ?_⟩
  intro events
  suffices hgen : ∀ (evs : List UiEvent) (h : List ChatMessage),
      h.length % 2 = 0 → (evs.foldl stepHistory h).length % 2 = 0 from
    hgen events [] rfl
  intro evs
  induction evs with
  | nil => intro h hh; simpa using hh
  | cons ev rest ih =>
    intro h hh
    cases ev with
    | submitted u r =>
      apply ih
      simp only [stepHistory, List.length_append, List.length_cons,
        List.length_nil]
      omega
    | clearChat =>
      apply ih
      simp [stepHistory]

/-- C9: an input with no substring matching the pattern `20[0-2]\d` makes
`extract_date_from_content` return absent: the code's stricter pattern then
has no match either. -/
theorem extract_year_no_match_none (text : String)
    (h : ∀ i < text.data.length, specYearMatchAt text.data i = false) :
    extract_date_from_content text = none := by
  rw [extract_date_from_content, findallYears_eq_decl]
  have hpos : yearMatchPositions text.data = [] := by
    unfold yearMatchPositions
    rw [List.filter_eq_nil_iff]
    intro i hi hy
    have hspec : specYearMatchAt text.data i = true := yearMatchAt_imp_spec hy
    rw [h i (List.mem_range.mp hi)] at hspec
    simp at hspec
  simp [declYears, hpos]

/-- Witness for C9: `"hello world"` has no match of `20[0-2]\d` at any
index and the extractor returns absent. -/
theorem extract_year_no_match_none_w :
    extract_date_from_content "hello world" = none :=
  extract_year_no_match_none "hello world" (by decide)

/-- C10: the composed prompt, and the whole downstream tail of the
search-augmented pipeline after the analysis record is built, do not depend
on the `content_year` field: two analyses agreeing on `current_year`,
`raw_content` and `query` produce identical prompts and identical
responses. -/
theorem content_year_not_consumed (a₁ a₂ : Analysis) (llm : Llm)
    (h1 : a₁.current_year = a₂.current_year)
    (h2 : a₁.raw_content = a₂.raw_content)
    (h3 : a₁.query = a₂.query) :
    create_time_aware_prompt a₁ = create_time_aware_prompt a₂ ∧
    respondFromAnalysis a₁ llm = respondFromAnalysis a₂ llm := by
  obtain ⟨c₁, y₁, r₁, q₁⟩ := a₁
  obtain ⟨c₂, y₂, r₂, q₂⟩ := a₂
  dsimp only at h1 h2 h3
  subst h1; subst h2; subst h3
  exact ⟨rfl, rfl⟩

/-- Witness for C10: two concrete analyses differing only in
`content_year` (one present, one absent) compose to the same prompt. -/
theorem content_year_not_consumed_w :
    create_time_aware_prompt
      { current_year := 2026, content_year := some "2021",
        raw_content := "raw", query := "q" } =
    create_time_aware_prompt
      { current_year := 2026, content_year := none,
        raw_content := "raw", query := "q" } :=
  (content_year_not_consumed _ _ (fun _ _ => Except.ok "r") rfl rfl rfl).1

end GroundingLlama
